import Mathlib

/-!
Verification development for the HSC103Controller repository: a serial
driver for motorized translation stages, with two protocol variants
(older "DS102" protocol, newer "HSC103" protocol).  The repository holds
two near-duplicate source files:

* `src/HSC103Controller/HSC103Controller.py` — classes `MySerial`,
  `DS102Controller`, `HSC103Controller`; embedded below in namespaces
  `MySerial`, `DS102`, `HSC103A`.
* `src/hsc103controller/HSC103Controller.py` — class `HSC103Controller`
  only; embedded below in namespace `HSC103B`.

Python built-ins used by the code (`int(str)`, `float(str)`, `str.split`,
`str.strip`, truncation of a float by `int(...)`) are modelled first, on
`List Char` so that everything evaluates in the kernel.  Arithmetic the
source performs on IEEE doubles is modelled in `ℚ`; at every point where
a theorem below depends on such arithmetic the constants involved are
exactly representable and every IEEE rounding step is exact, so the
rational model agrees with the double computation (noted locally).
-/

namespace Py

/-- One decimal digit value of `c`, when `c` is a digit. -/
def digit? (c : Char) : Option Nat :=
  if c.isDigit then some (c.toNat - 48) else none

/-- Read a non-empty all-digit string as a natural number (base 10). -/
def readDigits : List Char → Option Nat
  | [] => none
  | cs => go cs 0
where
  go : List Char → Nat → Option Nat
    | [], acc => some acc
    | c :: rest, acc =>
      match digit? c with
      | some d => go rest (10 * acc + d)
      | none => none

/-- Drop leading whitespace (as Python's `str.strip()` of numerals does). -/
def dropWs (s : List Char) : List Char := s.dropWhile Char.isWhitespace

/-- Strip whitespace from both ends. -/
def stripWs (s : List Char) : List Char := (dropWs (dropWs s.reverse).reverse)

/-- Optional sign: returns the sign (+1 / -1) and the rest. -/
def readSign : List Char → Int × List Char
  | '-' :: rest => (-1, rest)
  | '+' :: rest => (1, rest)
  | s => (1, s)

/-- Models Python `int(str)`: surrounding whitespace allowed, optional
sign, then one or more decimal digits.  (Python additionally allows
underscore digit separators inside the numeral; the code under
verification never produces those, and they are not modelled.)
Returns `none` where Python raises `ValueError`. -/
def pyInt (s : List Char) : Option Int :=
  let (sign, body) := readSign (stripWs s)
  (readDigits body).map (fun n => sign * n)

/-- Models Python `str.split(sep)` for a one-character separator:
splits on every occurrence, keeping empty pieces. -/
def splitChar (c : Char) : List Char → List (List Char)
  | [] => [[]]
  | a :: rest =>
      match splitChar c rest with
      | [] => [[]]
      | g :: gs => if a = c then [] :: g :: gs else (a :: g) :: gs

/-- Models Python `float(str)` on fixed-point decimal numerals:
surrounding whitespace, optional sign, digits with at most one point,
at least one digit overall.  The exact rational value is returned.
(Exponent forms and `inf`/`nan`, which the device never sends, are not
modelled.)  `none` where Python raises `ValueError`. -/
def pyFloat (s : List Char) : Option ℚ :=
  let (sign, body) := readSign (stripWs s)
  match splitChar '.' body with
  | [ipart] => (readDigits ipart).map (fun n => (sign : ℚ) * n)
  | [ipart, fpart] =>
      (readDigits (ipart ++ fpart)).map
        (fun n => (sign : ℚ) * n / (10 : ℚ) ^ fpart.length)
  | _ => none

/-- Python `int(x)` on a real value: truncation toward zero. -/
def pyTrunc (q : ℚ) : Int := q.num.tdiv q.den

/-- Models Python `str.strip(chars)`: removes any characters drawn from
`chars` from both ends. -/
def pyStrip (chars : List Char) (s : List Char) : List Char :=
  let f := fun c => decide (c ∈ chars)
  ((s.dropWhile f).reverse.dropWhile f).reverse

/-- Python `','.join(strings)`. -/
def joinComma (l : List String) : String := String.intercalate "," l

end Py

/-! ## `MySerial` (older protocol transport, `src/HSC103Controller`) -/

namespace MySerial

/-- The older protocol's line terminator, `eol = b'\x0d'`. -/
def eol : Char := '\r'

/-- The byte-accumulation loop of `MySerial.recv`: read one byte at a
time from the stream; if a byte arrives, append it and stop once the
buffer's suffix equals `eol`; if the read yields nothing (modelled as
the stream list being exhausted), stop immediately.  The stream is the
sequence of bytes the port would deliver, as ASCII chars. -/
def recvLoop : List Char → List Char → List Char
  | [], line => line
  | c :: rest, line =>
      let line' := line ++ [c]
      if line'.getLast? = some eol then line' else recvLoop rest line'

/-- Source `MySerial.recv`: run the loop from an empty buffer, decode, and
strip `'\x0d'` from both ends (`.strip('\x5cr')` in the source). -/
def recv (stream : List Char) : String :=
  ⟨Py.pyStrip [eol] (recvLoop stream [])⟩

end MySerial

/-! ## `DS102Controller` (older protocol, `src/HSC103Controller`) -/

namespace DS102

/-- Source `axis2msg`: `'AXIs1:'` for `'x'`, `'AXIs2:'` for `'y'`; raises
`ValueError` for anything else (modelled as `Except.error`). -/
def axis2msg (axis : String) : Except String String :=
  if axis = "x" then .ok "AXIs1:"
  else if axis = "y" then .ok "AXIs2:"
  else .error "Axis must be x or y."

/-- Source `DS102Controller.set_velocity`: if `vel` is outside `0 < vel ≤ 25000`
the call prints a diagnostic and returns, sending nothing (and never
reaching `axis2msg`); otherwise it sends the single command
`axis2msg(axis) + 'Fspeed0 \x7bvel\x7d'`.  The result is the list of
transmitted commands (before the transport appends the terminator), or
an uncaught exception. -/
def set_velocity (axis : String) (vel : Int) : Except String (List String) :=
  if ¬(0 < vel ∧ vel ≤ 25000) then .ok []
  else do
    let m ← axis2msg axis
    .ok [m ++ ("Fspeed0 " ++ toString vel)]

/-- Source `DS102Controller.move_velocity`: first `set_velocity(axis, abs(vel))`,
then send `axis2msg(axis) + 'GO ' + ('5' if vel > 0 else '6')`. -/
def move_velocity (axis : String) (vel : Int) : Except String (List String) := do
  let sent ← set_velocity axis |vel|
  let m ← axis2msg axis
  .ok (sent ++ [m ++ ("GO " ++ (if vel > 0 then "5" else "6"))])

/-- Decoding of one `POSition?` reply inside `DS102Controller.get_position`:
`int(float(reply) * 1000)`, and on `ValueError` the fallback `0`.
For the decimal numerals at stake the double computation
`float(reply) * 1000` rounds to the exact product (verified where used),
so exact rational arithmetic models it. -/
def decodePos (reply : String) : Int :=
  match Py.pyFloat reply.data with
  | some q => Py.pyTrunc (q * 1000)
  | none => 0

/-- Source `DS102Controller.get_position`: queries axis x then axis y
(`AXIs1:POSition?`, `AXIs2:POSition?`), decoding each reply
independently with `decodePos`.  `rx`, `ry` are the two replies; the
result pairs the transmitted queries with the decoded list. -/
def get_position (rx ry : String) : List String × List Int :=
  (["AXIs1:POSition?", "AXIs2:POSition?"], [decodePos rx, decodePos ry])

/-- Source `DS102Controller.check_limit`: sends `LIMIT?` and evaluates
`int(self.ser.recv())` with no exception handler, then returns
`ans > 0`.  A reply `int()` cannot parse raises `ValueError` (modelled
as `Except.error`). -/
def check_limit (reply : String) : Except String Bool :=
  match Py.pyInt reply.data with
  | some ans => .ok (decide (ans > 0))
  | none => .error "ValueError"

end DS102

/-! ## `HSC103Controller` from `src/HSC103Controller/HSC103Controller.py`

Newer protocol, terminator `'\x5cr\x5cn'`.  Methods return the pair
(Python return value, list of transmitted commands); `some false`
models an explicit `return False`, `none` the implicit `None`. -/

namespace HSC103A

/-- Constant `um_per_pulse = 0.01` (micrometers per pulse).  `0.01` is
not an exact double, but every double computation the theorems below
touch rounds to the exact rational result, so `ℚ` models it. -/
def um_per_pulse : ℚ := 1 / 100

/-- Constant `max_speed = 4000000 * um_per_pulse` (micrometers).  In
IEEE doubles `4000000 * 0.01` rounds to exactly `40000.0` (the exact
product is within 0.12 ulp of 40000), matching the rational value. -/
def max_speed : ℚ := 4000000 * um_per_pulse

/-- Source `HSC103Controller.recv`: with no port, the fixed placeholder;
with a port, `msg = self.ser.readline().decode()` is the terminated
line, then the source evaluates `msg.strip(self.end)` but discards the
result (Python strings are immutable and `strip` returns a new string),
so `msg` is returned unchanged, terminator included. -/
def recv : Option String → String
  | none => "some response"
  | some msg =>
      let _stripped := Py.pyStrip ['\r', '\n'] msg.data
      msg

/-- Reply parsing shared by `is_busy` and `get_position`:
`list(map(int, msg.split(',')))`, all-or-nothing (Python raises
`ValueError` at the first bad field, caught by the caller). -/
def parseQ (msg : String) : Option (List Int) :=
  (Py.splitChar ',' msg.data).mapM Py.pyInt

/-- Source `HSC103Controller.is_busy` applied to the reply text of the
`Q:` query: parsed integer list, or `[-1, -1, -1]` on `ValueError`. -/
def is_busy (msg : String) : List Int := (parseQ msg).getD [-1, -1, -1]

/-- Source `HSC103Controller.get_position` applied to the reply text of
the `Q:` query: parsed integer list, or `[0, 0, 0]` on `ValueError`. -/
def get_position (msg : String) : List Int := (parseQ msg).getD [0, 0, 0]

/-- Source `HSC103Controller.move_abs` of `src/HSC103Controller`: a list
whose length is not 3 yields `return False` with nothing sent;
otherwise it sends `'A:' + ','.join(str(int(val * self.um_per_pulse))
for val in values)` — note the source MULTIPLIES each micrometer value
by `um_per_pulse` (0.01).  For the integer inputs considered, the double
product `val * 0.01` rounds to the exact rational product, so `int(...)`
is rational truncation. -/
def move_abs (values : List Int) : Option Bool × List String :=
  if values.length ≠ 3 then (some false, [])
  else (none, ["A:" ++ Py.joinComma (values.map
    fun v => toString (Py.pyTrunc ((v : ℚ) * um_per_pulse)))])

/-- Source `HSC103Controller.move_linear` of `src/HSC103Controller`:
builds `'K:' + ','.join(str(int(val * self.um_per_pulse)) for val in
[1, 2, 3] + coord)` — the axis indices `1, 2, 3` are fed through the
same `int(val * 0.01)` conversion as the deltas. -/
def move_linear (coord : List Int) : Option Bool × List String :=
  if coord.length ≠ 3 then (some false, [])
  else (none, ["K:" ++ Py.joinComma ((([1, 2, 3] : List Int) ++ coord).map
    fun v => toString (Py.pyTrunc ((v : ℚ) * um_per_pulse)))])

/-- Source `HSC103Controller.set_speed` (textually identical in both
source files): rejects a list whose length is not 4; unpacks
`axis, start, final, rate`; rejects `axis not in [1, 2, 3]`; rejects
`start < 1 or max_speed / um_per_pulse < start or final < 1 or
max_speed / um_per_pulse < final or final < start or rate < 1 or
1000 < rate`; otherwise sends `'D:' + ','.join(str(int(val)))`.
`max_speed / um_per_pulse` equals 4000000 exactly, in `ℚ` as here and
also in IEEE doubles (`40000.0 / 0.01` rounds to exactly `4000000.0`,
the exact quotient being within 0.18 ulp of it). -/
def set_speed : List Int → Option Bool × List String
  | [axis, start, final, rate] =>
      if ¬(axis = 1 ∨ axis = 2 ∨ axis = 3) then (some false, [])
      else if (start : ℚ) < 1 ∨ max_speed / um_per_pulse < (start : ℚ)
          ∨ (final : ℚ) < 1 ∨ max_speed / um_per_pulse < (final : ℚ)
          ∨ final < start ∨ rate < 1 ∨ 1000 < rate then (some false, [])
      else (none, ["D:" ++ Py.joinComma ([axis, start, final, rate].map toString)])
  | _ => (some false, [])

end HSC103A

/-! ## `HSC103Controller` from `src/hsc103controller/HSC103Controller.py` -/

namespace HSC103B

/-- Source `HSC103Controller.get_position` of `src/hsc103controller`:
sends the `Q:` query and returns without reading or parsing any reply
(implicit `None`). -/
def get_position : Option Bool × List String := (none, ["Q:"])

/-- Source `HSC103Controller.move_abs` of `src/hsc103controller`: as in
the sibling file but each micrometer value is DIVIDED by
`um_per_pulse`: `'A:' + ','.join(str(int(val / self.um_per_pulse)) for
val in values)`.  For every integer `val` with `|val| * 100 < 2^53` the
double quotient `val / 0.01` rounds to exactly `val * 100` (the exact
quotient is within 0.19 ulp), so rational truncation models `int(...)`. -/
def move_abs (values : List Int) : Option Bool × List String :=
  if values.length ≠ 3 then (some false, [])
  else (none, ["A:" ++ Py.joinComma (values.map
    fun v => toString (Py.pyTrunc ((v : ℚ) / HSC103A.um_per_pulse)))])

/-- Source `HSC103Controller.move_linear` of `src/hsc103controller`:
`'K:1,2,3,' + ','.join(str(int(val / self.um_per_pulse)) for val in
coord)` — the axis indices appear verbatim in the prefix. -/
def move_linear (coord : List Int) : Option Bool × List String :=
  if coord.length ≠ 3 then (some false, [])
  else (none, ["K:1,2,3," ++ Py.joinComma (coord.map
    fun v => toString (Py.pyTrunc ((v : ℚ) / HSC103A.um_per_pulse)))])

/-- Source `HSC103Controller.set_speed` of `src/hsc103controller`:
textually identical to the sibling file's. -/
def set_speed : List Int → Option Bool × List String := HSC103A.set_speed

end HSC103B

/-! ## Helper lemmas -/

/-- In-range velocity with a valid axis: exactly one command is sent. -/
theorem DS102.set_velocity_in_range (axis m : String) (vel : Int)
    (hm : DS102.axis2msg axis = .ok m) (h1 : 0 < vel) (h2 : vel ≤ 25000) :
    DS102.set_velocity axis vel = .ok [m ++ ("Fspeed0 " ++ toString vel)] := by
  simp only [DS102.set_velocity]
  rw [if_neg (by simp [h1, h2]), hm]
  rfl

/-- Out-of-range velocity: nothing sent, no exception, for any axis
(the range check precedes the axis check in the source). -/
theorem DS102.set_velocity_out_of_range (axis : String) (vel : Int)
    (h : ¬(0 < vel ∧ vel ≤ 25000)) :
    DS102.set_velocity axis vel = .ok [] := by
  simp only [DS102.set_velocity]
  rw [if_pos h]

/-- Unfolding of move_velocity for a valid axis, given the commands the
internal speed step sends. -/
theorem DS102.move_velocity_eq (axis m : String) (vel : Int) (sent : List String)
    (hm : DS102.axis2msg axis = .ok m)
    (hs : DS102.set_velocity axis |vel| = .ok sent) :
    DS102.move_velocity axis vel =
      .ok (sent ++ [m ++ ("GO " ++ (if vel > 0 then "5" else "6"))]) := by
  simp only [DS102.move_velocity]
  rw [hs]
  show (DS102.axis2msg axis).bind _ = _
  rw [hm]
  rfl

/-- The reply "12.345" parses to the exact rational 2469/200 (which is
also what Python's float yields up to the usual representation error;
the subsequent steps round identically, see decodePos_12_345). -/
theorem pyFloat_12_345 : Py.pyFloat "12.345".data = some ((2469 : ℚ) / 200) := by
  show some ((((1 : Int) : ℚ)) * ((12345 : ℕ) : ℚ) / (10 : ℚ) ^ 3) = _
  norm_num

/-- Decoding the reply "12.345" yields 12345 micrometers.  In IEEE
doubles likewise: float("12.345") is 12.345 + 3.6e-16, and multiplying
by 1000 rounds to exactly 12345.0 (the exact product is 0.35 ulp above
12345), so int(...) gives 12345 there as well. -/
theorem decodePos_12_345 : DS102.decodePos "12.345" = 12345 := by
  unfold DS102.decodePos
  rw [pyFloat_12_345]
  show Py.pyTrunc ((2469 : ℚ) / 200 * 1000) = 12345
  rw [show (2469 : ℚ) / 200 * 1000 = ((12345 : ℕ) : ℚ) by norm_num]
  norm_num [Py.pyTrunc]

/-! ## Claims -/

/-- C1: the claim states that the newer protocol's move_abs transmits
'A:' followed by the three micrometer values each converted to pulses
by truncating value divided by the pulse size (0.01 um per pulse).  The
copy in src/hsc103controller does exactly that (second conjunct:
[200, 0, 0] um encodes as 'A:20000,0,0'), but the copy in
src/HSC103Controller MULTIPLIES each value by the pulse size instead,
transmitting 'A:2,0,0' for the same input (first conjunct) — a
unit-conversion slip contradicting the claim, the sibling file, and the
class's own pulse documentation. -/
theorem C1_move_abs_unit_conversion_bug :
    HSC103A.move_abs [200, 0, 0] = (none, ["A:2,0,0"]) ∧
    HSC103B.move_abs [200, 0, 0] = (none, ["A:20000,0,0"]) := by
  constructor <;>
  · norm_num [HSC103A.move_abs, HSC103B.move_abs, Py.pyTrunc,
      HSC103A.um_per_pulse, Py.joinComma]
    rfl

/-- C2: the claim states that the newer protocol's move_linear transmits
'K:1,2,3,' verbatim followed by the three pulse-converted deltas.  The
copy in src/hsc103controller does (second conjunct: deltas
[100, 100, 100] um encode as 'K:1,2,3,10000,10000,10000'), but the copy
in src/HSC103Controller feeds the axis indices 1,2,3 through the same
int(val * 0.01) conversion as the deltas — and multiplies rather than
divides — transmitting 'K:0,0,0,1,1,1' for the same input (first
conjunct). -/
theorem C2_move_linear_axis_prefix_bug :
    HSC103A.move_linear [100, 100, 100] = (none, ["K:0,0,0,1,1,1"]) ∧
    HSC103B.move_linear [100, 100, 100] = (none, ["K:1,2,3,10000,10000,10000"]) := by
  constructor <;>
  · norm_num [HSC103A.move_linear, HSC103B.move_linear, Py.pyTrunc,
      HSC103A.um_per_pulse, Py.joinComma]
    rfl

/-- C3: the older transport's recv accumulates bytes until the buffer
ends in the terminator (first conjunct: the bytes after the terminator
are never read) or until a read yields no bytes — returning what was
accumulated, possibly empty, so a stream that closes without a
terminator does not block (second and third conjuncts) — and strips the
terminator.  The newer protocol's recv, however, returns the line with
the terminator still attached (fourth conjunct): the source computes
msg.strip(end) but discards the result, where the claim requires the
stripped text (fifth conjunct exhibits it). -/
theorem C3_recv_terminator_handling :
    MySerial.recv "1,2,3\rXYZ".data = "1,2,3" ∧
    MySerial.recv "1,2".data = "1,2" ∧
    MySerial.recv "".data = "" ∧
    HSC103A.recv (some "1,2,3\r\n") = "1,2,3\r\n" ∧
    String.mk (Py.pyStrip ['\r', '\n'] "1,2,3\r\n".data) = "1,2,3" :=
  ⟨rfl, rfl, rfl, rfl, rfl⟩

/-- C4: for every reply text to the newer protocol's Q: query, is_busy
and get_position both split the reply on commas and parse each field as
an integer, returning the parsed list on success; on any parse failure
is_busy returns the sentinel [-1,-1,-1] and get_position returns
[0,0,0]; no error propagates (both functions are total). -/
theorem C4_busy_position_query_parse (msg : String) :
    (∀ l, HSC103A.parseQ msg = some l →
      HSC103A.is_busy msg = l ∧ HSC103A.get_position msg = l) ∧
    (HSC103A.parseQ msg = none →
      HSC103A.is_busy msg = [-1, -1, -1] ∧ HSC103A.get_position msg = [0, 0, 0]) := by
  refine ⟨fun l h => ?_, fun h => ?_⟩ <;>
    simp [HSC103A.is_busy, HSC103A.get_position, h]

/-- Witness for C4 at the spec's own examples: reply "1,0,-1" parses to
[1,0,-1] for both calls; reply "bad" falls back to the two sentinels. -/
theorem C4_busy_position_query_parse_witness :
    HSC103A.is_busy "1,0,-1" = [1, 0, -1] ∧
    HSC103A.get_position "1,0,-1" = [1, 0, -1] ∧
    HSC103A.is_busy "bad" = [-1, -1, -1] ∧
    HSC103A.get_position "bad" = [0, 0, 0] :=
  ⟨((C4_busy_position_query_parse "1,0,-1").1 [1, 0, -1] (by decide)).1,
   ((C4_busy_position_query_parse "1,0,-1").1 [1, 0, -1] (by decide)).2,
   ((C4_busy_position_query_parse "bad").2 (by decide)).1,
   ((C4_busy_position_query_parse "bad").2 (by decide)).2⟩

/-- C5 counterexample: the claim says every older-protocol operation
that parses a numeric reply — including the limit query — replaces a
non-numeric or empty reply by a fallback and never surfaces an
exception; but check_limit feeds the reply to int() unguarded, so the
reply "bad" raises an uncaught ValueError. -/
theorem C5_check_limit_counterexample :
    DS102.check_limit "bad" = .error "ValueError" := rfl

/-- C5 amended: the position decode replaces an unparsable reply by the
fallback 0, but the limit query propagates ValueError on any reply
int() cannot parse, and returns the comparison ans > 0 on any it can. -/
theorem C5_reply_fallback_amended (r : String) :
    (Py.pyFloat r.data = none → DS102.decodePos r = 0) ∧
    (Py.pyInt r.data = none → DS102.check_limit r = .error "ValueError") ∧
    (∀ n, Py.pyInt r.data = some n → DS102.check_limit r = .ok (decide (n > 0))) := by
  refine ⟨fun h => ?_, fun h => ?_, fun n h => ?_⟩ <;>
    simp [DS102.decodePos, DS102.check_limit, h]

/-- Witness for C5 amended, at the replies "bad", "" and "2". -/
theorem C5_reply_fallback_amended_witness :
    DS102.decodePos "bad" = 0 ∧
    DS102.check_limit "" = .error "ValueError" ∧
    DS102.check_limit "2" = .ok (decide ((2 : Int) > 0)) :=
  ⟨(C5_reply_fallback_amended "bad").1 (by decide),
   (C5_reply_fallback_amended "").2.1 (by decide),
   (C5_reply_fallback_amended "2").2.2 2 (by decide)⟩

/-- C6: for every integer vel with vel ≤ 0 or vel > 25000, set_velocity
transmits nothing and raises no exception — for ANY axis string, since
the range check precedes the axis lookup; for every vel in [1, 25000]
and a valid axis it transmits exactly one command, and that command
contains the decimal rendering of vel. -/
theorem C6_set_velocity_validation (axis : String) (vel : Int) :
    (vel ≤ 0 ∨ 25000 < vel → DS102.set_velocity axis vel = .ok []) ∧
    (0 < vel → vel ≤ 25000 → ∀ m, DS102.axis2msg axis = .ok m →
      ∃ c, DS102.set_velocity axis vel = .ok [c] ∧
        ∃ p q, c.data = p ++ ((toString vel).data ++ q)) := by
  constructor
  · intro h
    exact DS102.set_velocity_out_of_range axis vel (by omega)
  · intro h1 h2 m hm
    refine ⟨m ++ ("Fspeed0 " ++ toString vel),
      DS102.set_velocity_in_range axis m vel hm h1 h2,
      m.data ++ "Fspeed0 ".data, [], ?_⟩
    simp

/-- Witness for C6: vel = 26000 is soft-rejected with no transmission;
vel = 5 on axis x transmits one command containing "5". -/
theorem C6_set_velocity_validation_witness :
    DS102.set_velocity "x" 26000 = .ok [] ∧
    (∃ c, DS102.set_velocity "x" 5 = .ok [c] ∧
      ∃ p q, c.data = p ++ ((toString (5 : Int)).data ++ q)) :=
  ⟨(C6_set_velocity_validation "x" 26000).1 (by norm_num),
   (C6_set_velocity_validation "x" 5).2 (by norm_num) (by norm_num) "AXIs1:" rfl⟩

/-- C7: move_velocity first runs set_velocity on abs(vel) and then
transmits one GO command whose direction code is 5 when vel > 0 and 6
otherwise (so vel = 0 gets code 6); in particular vel = 5 and vel = -5
produce the identical speed command "Fspeed0 5" followed by direction
codes 5 and 6 respectively. -/
theorem C7_move_velocity_direction (axis m : String) (vel : Int)
    (hm : DS102.axis2msg axis = .ok m) :
    (∃ sent, DS102.set_velocity axis |vel| = .ok sent ∧
      DS102.move_velocity axis vel =
        .ok (sent ++ [m ++ ("GO " ++ (if vel > 0 then "5" else "6"))])) ∧
    DS102.move_velocity axis 5 = .ok [m ++ "Fspeed0 5", m ++ "GO 5"] ∧
    DS102.move_velocity axis (-5) = .ok [m ++ "Fspeed0 5", m ++ "GO 6"] := by
  refine ⟨?_, ?_, ?_⟩
  · by_cases hr : 0 < |vel| ∧ |vel| ≤ 25000
    · exact ⟨[m ++ ("Fspeed0 " ++ toString |vel|)],
        DS102.set_velocity_in_range axis m |vel| hm hr.1 hr.2,
        DS102.move_velocity_eq axis m vel _ hm
          (DS102.set_velocity_in_range axis m |vel| hm hr.1 hr.2)⟩
    · exact ⟨[], DS102.set_velocity_out_of_range axis |vel| hr,
        DS102.move_velocity_eq axis m vel [] hm
          (DS102.set_velocity_out_of_range axis |vel| hr)⟩
  · exact DS102.move_velocity_eq axis m 5 _ hm
      (DS102.set_velocity_in_range axis m 5 hm (by norm_num) (by norm_num))
  · refine DS102.move_velocity_eq axis m (-5)
      [m ++ ("Fspeed0 " ++ toString (5 : Int))] hm ?_
    rw [show |(-5 : Int)| = 5 from by norm_num]
    exact DS102.set_velocity_in_range axis m 5 hm (by norm_num) (by norm_num)

/-- Witness for C7 on axis x: the 5 / -5 command sequences of the spec. -/
theorem C7_move_velocity_direction_witness :
    DS102.move_velocity "x" 5 = .ok ["AXIs1:Fspeed0 5", "AXIs1:GO 5"] ∧
    DS102.move_velocity "x" (-5) = .ok ["AXIs1:Fspeed0 5", "AXIs1:GO 6"] :=
  ⟨(C7_move_velocity_direction "x" "AXIs1:" 7 rfl).2.1,
   (C7_move_velocity_direction "x" "AXIs1:" 7 rfl).2.2⟩

/-- C8: any of the eight boundary violations makes set_speed (both
copies) return False and transmit nothing.  The pulse-speed ceiling
max_speed / um_per_pulse equals 4000000 exactly (in ℚ here, and in the
source's double arithmetic as well), so the violation conditions reduce
to the claim's integer bounds. -/
theorem C8_set_speed_soft_reject (axis start final rate : Int)
    (h : ¬(axis = 1 ∨ axis = 2 ∨ axis = 3) ∨ start < 1 ∨ 4000000 < start ∨
      final < 1 ∨ 4000000 < final ∨ final < start ∨ rate < 1 ∨ 1000 < rate) :
    HSC103A.set_speed [axis, start, final, rate] = (some false, []) ∧
    HSC103B.set_speed [axis, start, final, rate] = (some false, []) := by
  have key : HSC103A.set_speed [axis, start, final, rate] = (some false, []) := by
    have hms : HSC103A.max_speed / HSC103A.um_per_pulse = (4000000 : ℚ) := by
      norm_num [HSC103A.max_speed, HSC103A.um_per_pulse]
    simp only [HSC103A.set_speed, hms]
    by_cases hax : axis = 1 ∨ axis = 2 ∨ axis = 3
    · have hr : (start : ℚ) < 1 ∨ 4000000 < (start : ℚ) ∨ (final : ℚ) < 1 ∨
          4000000 < (final : ℚ) ∨ final < start ∨ rate < 1 ∨ 1000 < rate := by
        rcases h with h | h | h | h | h | h | h | h
        · exact absurd hax h
        · exact Or.inl (by exact_mod_cast h)
        · exact Or.inr (Or.inl (by exact_mod_cast h))
        · exact Or.inr (Or.inr (Or.inl (by exact_mod_cast h)))
        · exact Or.inr (Or.inr (Or.inr (Or.inl (by exact_mod_cast h))))
        · exact Or.inr (Or.inr (Or.inr (Or.inr (Or.inl h))))
        · exact Or.inr (Or.inr (Or.inr (Or.inr (Or.inr (Or.inl h)))))
        · exact Or.inr (Or.inr (Or.inr (Or.inr (Or.inr (Or.inr h)))))
      rw [if_neg (not_not_intro hax), if_pos hr]
    · rw [if_pos hax]
  exact ⟨key, key⟩

/-- Witness for C8: the spec's four independent boundary violations
(axis = 4, start = 0, final < start, rate = 1001) each yield a False
return and zero transmissions. -/
theorem C8_set_speed_soft_reject_witness :
    HSC103A.set_speed [4, 100, 200, 10] = (some false, []) ∧
    HSC103A.set_speed [1, 0, 200, 10] = (some false, []) ∧
    HSC103A.set_speed [1, 200, 100, 10] = (some false, []) ∧
    HSC103B.set_speed [1, 100, 200, 1001] = (some false, []) :=
  ⟨(C8_set_speed_soft_reject 4 100 200 10 (by norm_num)).1,
   (C8_set_speed_soft_reject 1 0 200 10 (by norm_num)).1,
   (C8_set_speed_soft_reject 1 200 100 10 (by norm_num)).1,
   (C8_set_speed_soft_reject 1 100 200 1001 (by norm_num)).2⟩

/-- C9: the older protocol's get_position queries axis x then axis y and
decodes the two replies independently — each reply parsed as a decimal
(millimeter) number, scaled by 1000 and truncated to an integer
micrometer value, an unparsable reply contributing the fallback 0
without affecting the other axis; with replies "bad" and "12.345" the
result is [0, 12345]. -/
theorem C9_get_position_per_axis (rx ry : String) :
    DS102.get_position rx ry =
      (["AXIs1:POSition?", "AXIs2:POSition?"],
        [DS102.decodePos rx, DS102.decodePos ry]) ∧
    (Py.pyFloat rx.data = none → DS102.decodePos rx = 0) ∧
    (∀ q, Py.pyFloat rx.data = some q → DS102.decodePos rx = Py.pyTrunc (q * 1000)) ∧
    DS102.get_position "bad" "12.345" =
      (["AXIs1:POSition?", "AXIs2:POSition?"], [0, 12345]) := by
  refine ⟨rfl, fun h => ?_, fun q h => ?_, ?_⟩
  · simp [DS102.decodePos, h]
  · simp [DS102.decodePos, h]
  · have hb : DS102.decodePos "bad" = 0 := rfl
    simp [DS102.get_position, hb, decodePos_12_345]

/-- Witness for C9 at the spec's example: reply "bad" for x decodes to
the fallback 0 and the pair of replies "bad", "12.345" gives [0, 12345]. -/
theorem C9_get_position_per_axis_witness :
    DS102.decodePos "bad" = 0 ∧
    DS102.get_position "bad" "12.345" =
      (["AXIs1:POSition?", "AXIs2:POSition?"], [0, 12345]) :=
  ⟨(C9_get_position_per_axis "bad" "12.345").2.1 (by rfl),
   (C9_get_position_per_axis "bad" "12.345").2.2.2⟩

/-- C10: move_velocity(axis, 0) on a valid axis transmits exactly one
command, the direction command GO 6, and no speed command: the internal
set_velocity(axis, abs(0)) fails its range check 0 < vel ≤ 25000 and
transmits nothing. -/
theorem C10_move_velocity_zero (axis m : String)
    (hm : DS102.axis2msg axis = .ok m) :
    DS102.set_velocity axis 0 = .ok [] ∧
    DS102.move_velocity axis 0 = .ok [m ++ "GO 6"] := by
  refine ⟨DS102.set_velocity_out_of_range axis 0 (by norm_num), ?_⟩
  exact DS102.move_velocity_eq axis m 0 [] hm
    (DS102.set_velocity_out_of_range axis 0 (by norm_num))

/-- Witness for C10 on axis x. -/
theorem C10_move_velocity_zero_witness :
    DS102.move_velocity "x" 0 = .ok ["AXIs1:GO 6"] :=
  (C10_move_velocity_zero "x" "AXIs1:" rfl).2
